import Mathlib

/-!
Verification development for the address-allocation and route/DNS
orchestration core of the baker-street-integrations repository.

The definitions below are a shallow embedding of the Python sources:

* `baker_street_ipam_service.py` — `IPAMService.allocate_ip`,
  `IPAMService.release_ip`, `IPAMService._is_cyber_range_ip`;
* `enhanced_route_injection_service.py` —
  `RouteInjectionService.inject_route_for_dns_record`,
  `RouteInjectionService.remove_route_for_dns_record`,
  `RouteInjectionService.is_cyber_range_ip`,
  `RouteInjectionService.generate_route_name`;
* `route_injection_service.py` — `DNSWebhookHandler._is_cyber_range_ip`;
* `upload_pan_os_config.py` / `generate_mgmt_cert.py` — `commit_config`
  (the commit-job polling loop).

IPv4 addresses are modelled as natural numbers below `2^32`; the dotted-quad
strings the Python code passes around are produced by `ipStr` and parsed by
`parseIPv4`, which mirrors the `ipaddress.ip_address` acceptance rules for
IPv4 literals (four dot-separated decimal octets, no leading zeros, each at
most 255).  External collaborators (the DNS API, the route-injection HTTP
endpoint, the firewall API, Redis) are modelled by boolean outcome oracles
and explicit state lists, exactly at the points where the Python code
branches on their success.
-/

set_option maxRecDepth 8000

/-! ## IPv4 addresses as numbers and dotted-quad strings -/

/-- Pack four octets into a single numeric IPv4 address. -/
def mkIp (a b c d : Nat) : Nat := ((a * 256 + b) * 256 + c) * 256 + d

/-- The dotted-quad rendering of a numeric address, as produced by Python's
`str(ipaddress.IPv4Address(...))`. -/
def ipStr (ip : Nat) : String :=
  Nat.repr (ip / 16777216 % 256) ++ "." ++ Nat.repr (ip / 65536 % 256) ++ "." ++
    Nat.repr (ip / 256 % 256) ++ "." ++ Nat.repr (ip % 256)

/-- Is the character a decimal digit. -/
def isDigitChar (c : Char) : Bool := '0' ≤ c && c ≤ '9'

/-- Numeric value of a digit character. -/
def digitVal (c : Char) : Nat := c.toNat - 48

/-- Parse one decimal octet the way `ipaddress` does for IPv4 literals:
only digits, at most three of them, no leading zero (except "0" itself),
and value at most 255. -/
def parseOctet (l : List Char) : Option Nat :=
  if l.isEmpty then none
  else if !(l.all isDigitChar) then none
  else if l.length > 3 then none
  else if l.head? == some '0' && l.length > 1 then none
  else
    let v := l.foldl (fun n c => n * 10 + digitVal c) 0
    if v ≤ 255 then some v else none

/-- Split a character list on '.', mirroring Python's `str.split('.')`. -/
def splitDot : List Char → List (List Char)
  | [] => [[]]
  | c :: cs =>
    if c = '.' then [] :: splitDot cs
    else
      match splitDot cs with
      | [] => [[c]]
      | g :: gs => (c :: g) :: gs

/-- Parse an IPv4 dotted-quad literal to its numeric value, following the
acceptance rules of `ipaddress.ip_address` for IPv4 strings. -/
def parseIPv4 (s : String) : Option Nat :=
  match splitDot s.toList with
  | [g1, g2, g3, g4] =>
    match parseOctet g1, parseOctet g2, parseOctet g3, parseOctet g4 with
    | some a, some b, some c, some d => some (mkIp a b c d)
    | _, _, _, _ => none
  | _ => none

/-- A character list with no '.' in it. -/
def noDot (l : List Char) : Bool := l.all (fun c => c != '.')

/-! ## Python `str.startswith` on character lists -/

/-- Character-level prefix test: `charsStartWith p l` is true when `l` begins
with `p`.  Used to model Python's `str.startswith`. -/
def charsStartWith : List Char → List Char → Bool
  | [], _ => true
  | _ :: _, [] => false
  | p :: ps, c :: cs => p == c && charsStartWith ps cs

/-- Model of Python's `s.startswith(pre)`. -/
def pyStartsWith (s pre : String) : Bool := charsStartWith pre.toList s.toList

/-! ## CIDR membership -/

/-- Python's `ip in ipaddress.ip_network(...)`: membership runs from the
network address to the broadcast address inclusive.  `net` is the (aligned)
network address and `plen` the prefix length. -/
def inNetwork (ip net plen : Nat) : Bool :=
  net ≤ ip && ip ≤ net + (2 ^ (32 - plen) - 1)

/-- The broadcast address of a CIDR block. -/
def broadcastAddr (net plen : Nat) : Nat := net + (2 ^ (32 - plen) - 1)

/-- Python's `ipaddress.ip_network(cidr).hosts()` as an ascending list:
all addresses strictly between network and broadcast for prefixes up to /30,
with the documented special cases for /31 and /32. -/
def hostsList (net plen : Nat) : List Nat :=
  if plen ≥ 31 then
    if plen = 32 then [net] else [net, net + 1]
  else
    (List.range (2 ^ (32 - plen) - 2)).map (fun k => net + 1 + k)

/-! ## The managed-range ("cyber range") predicates

Three implementations exist in the source.  `IPAMService._is_cyber_range_ip`
(baker_street_ipam_service.py) checks a hardcoded CIDR list;
`RouteInjectionService.is_cyber_range_ip` (enhanced_route_injection_service.py)
checks a configured CIDR list; `DNSWebhookHandler._is_cyber_range_ip`
(route_injection_service.py) checks string beginnings. -/

/-- The hardcoded `cyber_range_networks` list of `IPAMService._is_cyber_range_ip`,
as (network address, prefix length) pairs. -/
def cyberRangeNetworks : List (Nat × Nat) :=
  [(mkIp 10 0 0 0, 8), (mkIp 172 20 0 0, 16), (mkIp 172 21 0 0, 16), (mkIp 192 168 0 0, 16)]

/-- `RouteInjectionService.is_cyber_range_ip`: parse the string and test it
against a configured list of CIDR networks; parse failure yields `false`. -/
def is_cyber_range_ip (nets : List (Nat × Nat)) (s : String) : Bool :=
  match parseIPv4 s with
  | none => false
  | some ip => nets.any (fun nw => inNetwork ip nw.1 nw.2)

/-- `IPAMService._is_cyber_range_ip`: the same CIDR test against the
hardcoded four-network list. -/
def ipam_is_cyber_range_ip (s : String) : Bool :=
  is_cyber_range_ip cyberRangeNetworks s

/-- `DNSWebhookHandler._is_cyber_range_ip`:
`ip_address.startswith(("10.", "172.", "192.168."))`. -/
def webhook_is_cyber_range_ip (s : String) : Bool :=
  pyStartsWith s "10." || pyStartsWith s "172." || pyStartsWith s "192.168."

/-! ## IPAM data model

Mirrors the SQLAlchemy tables of baker_street_ipam_service.py that the
allocation logic reads and writes.  Timestamps are abstract natural numbers.
The advisory Redis mirror written by `_cache_ip_allocation` holds no
decision-relevant state and is not modelled.  `World.logs` records the
`logger.error`/`logger.warning` calls of the embedded code paths (with the
interpolated exception text elided). -/

inductive IPStatus
  | available
  | allocated
  | reserved
deriving DecidableEq, Repr

/-- A row of the `subnets` table (the fields the allocator reads). -/
structure Subnet where
  id : Nat
  net : Nat
  plen : Nat
  gateway : Option Nat
  zone : String
deriving DecidableEq, Repr

/-- A row of the `ip_addresses` table. -/
structure IPRecord where
  id : Nat
  ip : Nat
  subnetId : Nat
  deviceId : Option Nat
  status : IPStatus
  allocatedAt : Option Nat
  expiresAt : Option Nat
  notes : Option String
deriving DecidableEq, Repr

/-- A row of the `devices` table (the fields the allocator reads). -/
structure DeviceRec where
  id : Nat
  hostname : String
deriving DecidableEq, Repr

/-- A DNS record as created through `DNSAPIClient.create_record`. -/
structure DNSEntry where
  fqdn : String
  ip : Nat
deriving DecidableEq, Repr

/-- The mutable state the IPAM service reads and writes. -/
structure World where
  nextId : Nat
  records : List IPRecord
  devices : List DeviceRec
  dns : List DNSEntry
  logs : List String
deriving DecidableEq, Repr

/-- `status.in_(['allocated', 'reserved'])`. -/
def isActiveStatus (st : IPStatus) : Bool :=
  st = IPStatus.allocated || st = IPStatus.reserved

/-- The scan path's availability test: the address is free when the set of
ip strings of this subnet's allocated/reserved rows does not contain it
(`str(ip) not in allocated_set`). -/
def scanFree (records : List IPRecord) (subnetId ip : Nat) : Bool :=
  !((records.filter (fun r => r.subnetId == subnetId && isActiveStatus r.status)).any
    (fun r => ipStr r.ip == ipStr ip))

/-! ## `IPAMService.allocate_ip` -/

/-- The error taxonomy of the IPAM service: each constructor is one of the
`raise HTTPException(...)` sites inside `allocate_ip`/`release_ip`. -/
inductive IpamError
  | subnetNotFound
  | invalidAddress
  | outOfRange
  | conflict
  | poolExhausted
  | notAllocated
deriving DecidableEq, Repr

/-- The HTTP status code at the raise site of each error. -/
def raiseStatus : IpamError → Nat
  | .subnetNotFound => 404
  | .invalidAddress => 400
  | .outOfRange => 400
  | .conflict => 409
  | .poolExhausted => 507
  | .notAllocated => 404

/-- The detail message at the raise site of each error. -/
def raiseDetail : IpamError → String
  | .subnetNotFound => "Subnet not found"
  | .invalidAddress => "Invalid preferred IP format"
  | .outOfRange => "Preferred IP not in subnet"
  | .conflict => "Preferred IP already allocated"
  | .poolExhausted => "No available IPs in subnet"
  | .notAllocated => "IP address not found or not allocated"

/-- The `except Exception` wrapper at the bottom of `allocate_ip`/`release_ip`:
it catches the service's own `HTTPException`s and re-raises
`HTTPException(status_code=500, detail=str(e))`, where `str(e)` of a starlette
`HTTPException` is "<code>: <detail>".  The surfaced error is therefore always
a 500 whose detail embeds the original raise. -/
def httpWrap (e : IpamError) : Nat × String :=
  (500, Nat.repr (raiseStatus e) ++ ": " ++ raiseDetail e)

/-- Lines 306-347 of baker_street_ipam_service.py: look up the subnet,
validate/parse a preferred address against the CIDR and the system-wide
conflict check, or scan `network.hosts()` in ascending order for the first
address free in this subnet.  Returns the subnet row and the address to
allocate, or the first `HTTPException` raised. -/
def selectIp (subnets : List Subnet) (records : List IPRecord) (subnetId : Nat)
    (preferredIp : Option String) : Except IpamError (Subnet × Nat) :=
  match subnets.find? (fun s => s.id == subnetId) with
  | none => .error .subnetNotFound
  | some subnet =>
    match preferredIp with
    | some pstr =>
      match parseIPv4 pstr with
      | none => .error .invalidAddress
      | some p =>
        if !(inNetwork p subnet.net subnet.plen) then .error .outOfRange
        else if records.any (fun r => ipStr r.ip == pstr && isActiveStatus r.status) then
          .error .conflict
        else .ok (subnet, p)
    | none =>
      match (hostsList subnet.net subnet.plen).find? (scanFree records subnetId) with
      | some ip => .ok (subnet, ip)
      | none => .error .poolExhausted

/-- The "Create DNS record if device is specified" stage of `allocate_ip`:
the device row is looked up, and `_create_dns_record` posts
`hostname.zone -> ip`; its exceptions are swallowed and logged. -/
def allocDnsStage (w1 : World) (subnet : Subnet) (dnsOk : Bool)
    (deviceId : Option Nat) (ip : Nat) : World :=
  match deviceId with
  | some did =>
    match w1.devices.find? (fun d => d.id == did) with
    | some dev =>
      if dnsOk then
        { w1 with dns := w1.dns ++ [{ fqdn := dev.hostname ++ "." ++ subnet.zone, ip := ip }] }
      else { w1 with logs := w1.logs ++ ["Failed to create DNS record"] }
    | none => w1
  | none => w1

/-- The "Trigger route injection if in cyber range" stage of `allocate_ip`:
`_trigger_route_injection` swallows its exceptions and logs them, so a route
failure changes nothing but the log. -/
def allocRouteStage (w2 : World) (routeOk : Bool) (ip : Nat) : World :=
  if ipam_is_cyber_range_ip (ipStr ip) then
    if routeOk then w2
    else { w2 with logs := w2.logs ++ ["Failed to trigger route injection"] }
  else w2

/-- `IPAMService.allocate_ip` (baker_street_ipam_service.py, lines 299-392).
`dnsOk`/`routeOk` are the outcome oracles for the DNS API call and the
route-injection HTTP call; both helpers swallow their exceptions and only
log, so neither outcome can fail the allocation.  On any `HTTPException`
raised inside the `try` block the `except Exception` handler rolls the
session back (no state was written: every raise precedes `session.add`) and
re-raises a 500 via `httpWrap`. -/
def allocate_ip (subnets : List Subnet) (w : World) (dnsOk routeOk : Bool)
    (subnetId : Nat) (deviceId : Option Nat) (preferredIp : Option String)
    (notes : Option String) (expiresAt : Option Nat) (now : Nat) :
    Except (Nat × String) (World × IPRecord) :=
  match selectIp subnets w.records subnetId preferredIp with
  | .error e => .error (httpWrap e)
  | .ok (subnet, ip) =>
    let ipRec : IPRecord :=
      { id := w.nextId, ip := ip, subnetId := subnetId, deviceId := deviceId,
        status := .allocated, allocatedAt := some now, expiresAt := expiresAt,
        notes := notes }
    let w1 : World := { w with nextId := w.nextId + 1, records := w.records ++ [ipRec] }
    .ok (allocRouteStage (allocDnsStage w1 subnet dnsOk deviceId ip) routeOk ip, ipRec)

/-! ## `IPAMService.release_ip` -/

/-- Replace the first element satisfying `p` by its image under `f`
(the in-place mutation of the row found by `query(...).first()`). -/
def updateFirst {α : Type} (p : α → Bool) (f : α → α) : List α → List α
  | [] => []
  | x :: xs => if p x then f x :: xs else x :: updateFirst p f xs

/-- The field updates release_ip performs on the found row: status back to
available, allocation timestamp, expiry and device linkage cleared.
The `notes`, `ip` and `subnetId` fields are not touched. -/
def clearRecord (r : IPRecord) : IPRecord :=
  { r with status := .available, allocatedAt := none, expiresAt := none, deviceId := none }

/-- The row predicate of release_ip's query:
`ip_address == ip_address AND status == 'allocated'`. -/
def releasePred (s : String) (r : IPRecord) : Bool :=
  ipStr r.ip == s && r.status == IPStatus.allocated

/-- The "Remove route if in cyber range" stage of `release_ip`:
`_remove_route_injection` swallows its exceptions and logs them. -/
def releaseRouteStage (w1 : World) (routeOk : Bool) (s : String) : World :=
  if ipam_is_cyber_range_ip s then
    if routeOk then w1
    else { w1 with logs := w1.logs ++ ["Failed to remove route injection"] }
  else w1

/-- `IPAMService.release_ip` (baker_street_ipam_service.py, lines 394-432).
`routeOk` is the outcome oracle for the route-removal HTTP call.  The DNS
removal helper (`DNSAPIClient.remove_record_by_ip`) is a stub that only logs,
so `w.dns` is never changed by a release. -/
def release_ip (w : World) (routeOk : Bool) (s : String) :
    Except (Nat × String) (World × String) :=
  match w.records.find? (releasePred s) with
  | none => .error (httpWrap .notAllocated)
  | some _ =>
    let w1 : World := { w with records := updateFirst (releasePred s) clearRecord w.records }
    .ok (releaseRouteStage w1 routeOk s, "IP address " ++ s ++ " released successfully")

/-! ## `RouteInjectionService` (enhanced_route_injection_service.py) -/

/-- Python's `s.replace(a, b)` for single-character patterns
(the only form `generate_route_name` uses). -/
def pyReplaceChar (s : String) (a b : Char) : String :=
  String.mk (s.toList.map (fun c => if c == a then b else c))

/-- Join a list of strings with a separator, modelling `separator.join(parts)`. -/
def joinSep (sep : String) : List String → String
  | [] => ""
  | [x] => x
  | x :: xs => x ++ sep ++ joinSep sep xs

/-- `RouteInjectionService.generate_route_name` under the default naming
configuration (no `route_naming` key in the config): parts are the literal
"dns", the zone with dots replaced by underscores (when a zone is given),
the FQDN with dots and hyphens replaced by underscores, and the address with
dots replaced by underscores; no timestamp; separator "_". -/
def generate_route_name (fqdn ipAddr : String) (zone : Option String) : String :=
  let parts : List String :=
    ["dns"] ++
      (match zone with
       | some z => [pyReplaceChar z '.' '_']
       | none => []) ++
      [pyReplaceChar (pyReplaceChar fqdn '.' '_') '-' '_',
       pyReplaceChar ipAddr '.' '_']
  joinSep "_" parts

/-- The Redis key under which a route association is cached. -/
def routeKey (name : String) : String := "route:" ++ name

/-- Outcome oracles for the external calls of the enhanced route-injection
service: the mothership DNS API, route creation/deletion on the master
router, and the configuration commit.  `autoCommit` is the
`route_injection.auto_commit` configuration flag. -/
structure RouteEnv where
  dnsAddOk : Bool
  routeCreateOk : Bool
  routeDeleteOk : Bool
  autoCommit : Bool
  commitOk : Bool
deriving DecidableEq, Repr

/-- Result of `inject_route_for_dns_record`: the returned success flags plus
the resulting association cache (the Redis keys) and the warning/error log
lines emitted. -/
structure InjectOutcome where
  success : Bool
  routeInjected : Bool
  cache : List String
  logs : List String
deriving DecidableEq, Repr

/-- `RouteInjectionService.inject_route_for_dns_record`
(enhanced_route_injection_service.py, lines 434-509).  Note the commit stage:
when route creation succeeded and `auto_commit` is on, a failed commit is
only logged ("Route created but commit failed") — the association is still
written to Redis and the call still returns success. -/
def inject_route_for_dns_record (env : RouteEnv) (nets : List (Nat × Nat))
    (cache logs : List String) (zone fqdn ipAddr : String) : InjectOutcome :=
  if !(is_cyber_range_ip nets ipAddr) then
    { success := true, routeInjected := false, cache := cache, logs := logs }
  else if !env.dnsAddOk then
    { success := false, routeInjected := false, cache := cache, logs := logs }
  else
    let name := generate_route_name fqdn ipAddr (some zone)
    if env.routeCreateOk then
      let logs1 :=
        if env.autoCommit && !env.commitOk then logs ++ ["Route created but commit failed"]
        else logs
      let cache1 := if cache.contains (routeKey name) then cache else cache ++ [routeKey name]
      { success := true, routeInjected := true, cache := cache1, logs := logs1 }
    else
      { success := false, routeInjected := false, cache := cache,
        logs := logs ++ ["Route injection failed"] }

/-- Result of `remove_route_for_dns_record`. -/
structure RemoveOutcome where
  success : Bool
  routeRemoved : Bool
  cache : List String
  logs : List String
deriving DecidableEq, Repr

/-- `RouteInjectionService.remove_route_for_dns_record`
(enhanced_route_injection_service.py, lines 511-560).  When the cache holds
no entry for the generated route name the call is a success no-op; when the
route deletion succeeds the key is deleted from Redis even if the subsequent
commit fails (which is only logged). -/
def remove_route_for_dns_record (env : RouteEnv) (cache logs : List String)
    (zone fqdn ipAddr : String) : RemoveOutcome :=
  let key := routeKey (generate_route_name fqdn ipAddr (some zone))
  if !(cache.contains key) then
    { success := true, routeRemoved := false, cache := cache, logs := logs }
  else if env.routeDeleteOk then
    let logs1 :=
      if env.autoCommit && !env.commitOk then logs ++ ["Route deleted but commit failed"]
      else logs
    { success := true, routeRemoved := true, cache := cache.filter (fun k => k != key),
      logs := logs1 }
  else
    { success := false, routeRemoved := false, cache := cache,
      logs := logs ++ ["Route removal failed"] }

/-! ## `commit_config` commit-job polling
(upload_pan_os_config.py lines 135-215, generate_mgmt_cert.py lines 140-220;
the two copies are identical up to print formatting). -/

/-- One parsed poll response: the text of the `status` element if present,
and the text of the `result` element if present. -/
structure PollResp where
  jobStatus : Option String
  jobResult : Option String
deriving DecidableEq, Repr

/-- A single poll of the job endpoint: either a transport failure
(`requests` exception) or a response. -/
inductive PollOutcome
  | transportError
  | resp (r : PollResp)
deriving DecidableEq, Repr

/-- How one poll outcome terminates the loop, if it does: a transport error
returns False (the function-level handler), a response with no status element
returns False, a FIN status returns whether the result element says OK, and
any other status continues the loop. -/
def terminalAnswer : PollOutcome → Option Bool
  | .transportError => some false
  | .resp r =>
    match r.jobStatus with
    | none => some false
    | some st => if st = "FIN" then some (r.jobResult == some "OK") else none

/-- The `while True:` polling loop of `commit_config`, indexed by fuel: the
source loop has no iteration bound of its own, so `pollLoopFuel polls fuel i`
is the loop's result if it returns within `fuel` further polls starting at
poll index `i`, and `none` if it is still running after them.  Between
iterations the source sleeps `commitPollIntervalSeconds`. -/
def pollLoopFuel (polls : Nat → PollOutcome) : Nat → Nat → Option Bool
  | 0, _ => none
  | fuel + 1, i =>
    match terminalAnswer (polls i) with
    | some b => some b
    | none => pollLoopFuel polls fuel (i + 1)

/-- `time.sleep(2)` between polls. -/
def commitPollIntervalSeconds : Nat := 2

/-- The polling loop halts on a given poll sequence when it returns within
some finite number of polls. -/
def pollLoopHalts (polls : Nat → PollOutcome) : Prop :=
  ∃ fuel, (pollLoopFuel polls fuel 0).isSome

/-- Outcome of the initial commit request of `commit_config`. -/
inductive SubmitOutcome
  | transportError
  | apiError
  | noJob
  | job (polls : Nat → PollOutcome)

/-- `commit_config`: submit the commit; a transport error or an API-level
error returns False, a success response without a job id returns True
immediately, and a job id enters the polling loop. -/
def commit_config (submit : SubmitOutcome) (fuel : Nat) : Option Bool :=
  match submit with
  | .transportError => some false
  | .apiError => some false
  | .noJob => some true
  | .job polls => pollLoopFuel polls fuel 0

/-- The pool's hosts that the scan path would accept, in ascending order:
`network.hosts()` filtered by the availability test. -/
def freeHostsList (records : List IPRecord) (sid net plen : Nat) : List Nat :=
  (hostsList net plen).filter (scanFree records sid)

/-! ## Concrete fixtures for witnesses and counterexamples -/

/-- The pool of the spec's end-to-end scenarios: `10.100.1.0/24`,
gateway `10.100.1.1`. -/
def pool24 : Subnet :=
  { id := 1, net := mkIp 10 100 1 0, plen := 24, gateway := some (mkIp 10 100 1 1),
    zone := "bakerstreetlabs.local" }

/-- A world with no allocations, no devices and no DNS records. -/
def emptyWorld : World :=
  { nextId := 1, records := [], devices := [], dns := [], logs := [] }

/-- A small /29 pool for exhaustive witnesses: hosts `.1` .. `.6`. -/
def pool29 : Subnet :=
  { id := 2, net := mkIp 10 100 2 0, plen := 29, gateway := none, zone := "lab" }

/-- An allocated/reserved row used to pre-populate witness worlds. -/
def mkActiveRec (i ip sid : Nat) (st : IPStatus) : IPRecord :=
  { id := i, ip := ip, subnetId := sid, deviceId := none, status := st,
    allocatedAt := some 0, expiresAt := none, notes := none }

/-- A witness world over `pool29` in which `.1`, `.3` and `.6` are taken,
leaving exactly the free hosts `.2 < .4 < .5`. -/
def world29 : World :=
  { nextId := 10,
    records := [mkActiveRec 1 (mkIp 10 100 2 1) 2 .allocated,
                mkActiveRec 2 (mkIp 10 100 2 3) 2 .reserved,
                mkActiveRec 3 (mkIp 10 100 2 6) 2 .allocated],
    devices := [], dns := [], logs := [] }

/-- A /30 pool (hosts `.1`, `.2`) for the exhaustion witness. -/
def pool30 : Subnet :=
  { id := 3, net := mkIp 10 100 3 0, plen := 30, gateway := none, zone := "lab" }

/-- A world in which both hosts of `pool30` are taken. -/
def world30 : World :=
  { nextId := 20,
    records := [mkActiveRec 1 (mkIp 10 100 3 1) 3 .allocated,
                mkActiveRec 2 (mkIp 10 100 3 2) 3 .reserved],
    devices := [], dns := [], logs := [] }

/-- A world holding one device (id 7, hostname "target1") and no records. -/
def deviceWorld : World :=
  { nextId := 1, records := [], devices := [{ id := 7, hostname := "target1" }],
    dns := [], logs := [] }

/-- A world holding a single allocated record for `10.100.1.2` that carries
device linkage, timestamps and a note. -/
def notedWorld : World :=
  { nextId := 2,
    records := [{ id := 1, ip := mkIp 10 100 1 2, subnetId := 1, deviceId := some 7,
                  status := .allocated, allocatedAt := some 1111, expiresAt := some 2222,
                  notes := some "lab device" }],
    devices := [], dns := [], logs := [] }

/-- A poll sequence that never reaches a terminal state: every poll reports
an active (`"ACT"`) job. -/
def neverFinPolls : Nat → PollOutcome :=
  fun _ => .resp { jobStatus := some "ACT", jobResult := none }

/-- A poll sequence that reports `ACT` twice and then `FIN`/`OK`. -/
def finAfterTwoPolls : Nat → PollOutcome :=
  fun i =>
    if i < 2 then .resp { jobStatus := some "ACT", jobResult := none }
    else .resp { jobStatus := some "FIN", jobResult := some "OK" }

/-- The row `allocate_ip` inserts when it allocates address `x`. -/
def allocRecOf (w : World) (sid : Nat) (did : Option Nat) (notes : Option String)
    (expAt : Option Nat) (now x : Nat) : IPRecord :=
  { id := w.nextId, ip := x, subnetId := sid, deviceId := did, status := .allocated,
    allocatedAt := some now, expiresAt := expAt, notes := notes }

deriving instance DecidableEq for Except

/-- The enhanced service's default `route_injection.cyber_range_networks`
configuration (note: `172.21.0.0/16` is absent from this default, unlike the
IPAM service's hardcoded list). -/
def defaultNets : List (Nat × Nat) :=
  [(mkIp 10 0 0 0, 8), (mkIp 172 20 0 0, 16), (mkIp 192 168 0 0, 16)]

/-- The address an allocation call returned, if it succeeded. -/
def allocResultIp (r : Except (Nat × String) (World × IPRecord)) : Option Nat :=
  match r with
  | .ok (_, ipRec) => some ipRec.ip
  | .error _ => none

/-- The row created by allocating preferred `10.100.1.2` in `emptyWorld`. -/
def c4Rec : IPRecord :=
  { id := 1, ip := mkIp 10 100 1 2, subnetId := 1, deviceId := none,
    status := .allocated, allocatedAt := some 5, expiresAt := none, notes := none }

/-- The world after allocating preferred `10.100.1.2` in `emptyWorld`. -/
def c4World : World :=
  { nextId := 2, records := [c4Rec], devices := [], dns := [], logs := [] }

/-! ## Theorems -/
theorem splitDot_append (g rest : List Char) (h : noDot g = true) :
    splitDot (g ++ '.' :: rest) = g :: splitDot rest := by
  induction g with
  | nil => simp [splitDot]
  | cons c cs ih =>
    simp only [noDot, List.all_cons, Bool.and_eq_true, bne_iff_ne, ne_eq] at h
    have h2 : noDot cs = true := by
      simp only [noDot]; exact h.2
    simp only [List.cons_append, splitDot, if_neg h.1]
    rw [show cs.append ('.' :: rest) = cs ++ '.' :: rest from rfl, ih h2]

theorem splitDot_noDot (g : List Char) (h : noDot g = true) :
    splitDot g = [g] := by
  induction g with
  | nil => rfl
  | cons c cs ih =>
    simp only [noDot, List.all_cons, Bool.and_eq_true, bne_iff_ne, ne_eq] at h
    have h2 : noDot cs = true := by
      simp only [noDot]; exact h.2
    simp only [splitDot, if_neg h.1, ih h2]

theorem parseOctet_repr : ∀ n, n < 256 → parseOctet (Nat.repr n).toList = some n := by decide

theorem repr_noDot : ∀ n, n < 256 → noDot (Nat.repr n).toList = true := by decide

theorem toList_append (s t : String) : (s ++ t).toList = s.toList ++ t.toList :=
  String.data_append s t

theorem parseIPv4_quad (a b c d : Nat)
    (ha : a < 256) (hb : b < 256) (hc : c < 256) (hd : d < 256) :
    parseIPv4 (Nat.repr a ++ "." ++ Nat.repr b ++ "." ++ Nat.repr c ++ "." ++ Nat.repr d) =
      some (mkIp a b c d) := by
  have hdot : ("." : String).toList = ['.'] := rfl
  unfold parseIPv4
  rw [toList_append, toList_append, toList_append, toList_append, toList_append,
    toList_append, hdot]
  rw [List.append_assoc, List.append_assoc, List.append_assoc, List.append_assoc,
    List.append_assoc]
  simp only [List.singleton_append]
  rw [splitDot_append _ _ (repr_noDot a ha)]
  rw [splitDot_append _ _ (repr_noDot b hb)]
  rw [splitDot_append _ _ (repr_noDot c hc)]
  rw [splitDot_noDot _ (repr_noDot d hd)]
  have pa := parseOctet_repr a ha
  have pb := parseOctet_repr b hb
  have pc := parseOctet_repr c hc
  have pd := parseOctet_repr d hd
  simp only [String.toList] at pa pb pc pd
  simp [pa, pb, pc, pd]

theorem ipStr_parse (ip : Nat) (h : ip < 4294967296) :
    parseIPv4 (ipStr ip) = some ip := by
  unfold ipStr
  rw [parseIPv4_quad _ _ _ _ (Nat.mod_lt _ (by omega)) (Nat.mod_lt _ (by omega))
    (Nat.mod_lt _ (by omega)) (Nat.mod_lt _ (by omega))]
  simp only [Option.some_inj]
  unfold mkIp
  omega

theorem ipStr_inj {a b : Nat} (ha : a < 4294967296) (hb : b < 4294967296)
    (h : ipStr a = ipStr b) : a = b := by
  have h1 := ipStr_parse a ha
  rw [h, ipStr_parse b hb] at h1
  exact (Option.some_inj.mp h1).symm

/-! ## Helper lemmas -/

theorem find?_eq_filter_head {α : Type} (p : α → Bool) (l : List α) :
    l.find? p = (l.filter p).head? := by
  induction l with
  | nil => rfl
  | cons x xs ih =>
    rw [List.find?_cons, List.filter_cons]
    by_cases h : p x = true
    · simp [h]
    · simp only [h, if_false, Bool.false_eq_true]
      exact ih

theorem hostsList_pairwise (net plen : Nat) : (hostsList net plen).Pairwise (· < ·) := by
  unfold hostsList
  split_ifs with h1 h2
  · simp
  · simp
  · exact List.Pairwise.map _ (fun a b h => by omega) (List.pairwise_lt_range _)

theorem mem_hostsList_lt {ip net plen : Nat} (h : ip ∈ hostsList net plen)
    (hplen : plen ≤ 32) (hv : net + 2 ^ (32 - plen) ≤ 4294967296) :
    ip < 4294967296 := by
  have hpos : 1 ≤ 2 ^ (32 - plen) := Nat.one_le_two_pow
  unfold hostsList at h
  split_ifs at h with h1 h2
  · simp at h
    omega
  · simp at h
    have h31 : plen = 31 := by omega
    rw [h31] at hv
    norm_num at hv
    omega
  · simp only [List.mem_map, List.mem_range] at h
    obtain ⟨k, hk, rfl⟩ := h
    omega

theorem mem_hostsList_between {ip net plen : Nat} (h : ip ∈ hostsList net plen)
    (hp : plen ≤ 30) : net < ip ∧ ip < broadcastAddr net plen := by
  have h4 : 4 ≤ 2 ^ (32 - plen) := by
    calc (4 : Nat) = 2 ^ 2 := rfl
    _ ≤ 2 ^ (32 - plen) := Nat.pow_le_pow_right (by omega) (by omega)
  unfold hostsList at h
  rw [if_neg (by omega)] at h
  simp only [List.mem_map, List.mem_range] at h
  obtain ⟨k, hk, rfl⟩ := h
  unfold broadcastAddr
  omega

theorem ipStr_beq (a b : Nat) (ha : a < 4294967296) (hb : b < 4294967296) :
    (ipStr a == ipStr b) = (a == b) := by
  by_cases h : a = b
  · subst h
    simp
  · have hs : ipStr a ≠ ipStr b := fun he => h (ipStr_inj ha hb he)
    simp [h, hs]

theorem scanFree_append (records : List IPRecord) (rec : IPRecord) (sid ip : Nat)
    (hsid : rec.subnetId = sid) (hst : isActiveStatus rec.status = true) :
    scanFree (records ++ [rec]) sid ip =
      (scanFree records sid ip && !(ipStr rec.ip == ipStr ip)) := by
  simp [scanFree, List.filter_append, List.any_append, List.filter_cons, hsid, hst,
    Bool.not_or]

theorem updateFirst_mem {α : Type} {p : α → Bool} {f : α → α} {l : List α} {a : α}
    (h : l.find? p = some a) : f a ∈ updateFirst p f l := by
  induction l with
  | nil => simp [List.find?] at h
  | cons x xs ih =>
    by_cases hx : p x = true
    · rw [List.find?_cons_of_pos _ hx] at h
      simp only [Option.some_inj] at h
      subst h
      simp [updateFirst, hx]
    · rw [List.find?_cons_of_neg _ (by simp [hx])] at h
      simp [updateFirst, hx, ih h]

theorem allocDnsStage_records (w1 : World) (subnet : Subnet) (dnsOk : Bool)
    (deviceId : Option Nat) (ip : Nat) :
    (allocDnsStage w1 subnet dnsOk deviceId ip).records = w1.records := by
  unfold allocDnsStage
  repeat' split
  all_goals rfl

theorem allocRouteStage_records (w2 : World) (routeOk : Bool) (ip : Nat) :
    (allocRouteStage w2 routeOk ip).records = w2.records := by
  unfold allocRouteStage
  repeat' split
  all_goals rfl

theorem selectIp_scan (subnets : List Subnet) (records : List IPRecord)
    (sid : Nat) (subnet : Subnet)
    (hsub : subnets.find? (fun s => s.id == sid) = some subnet) :
    selectIp subnets records sid none =
      match (freeHostsList records sid subnet.net subnet.plen).head? with
      | some ip => .ok (subnet, ip)
      | none => .error .poolExhausted := by
  simp only [selectIp, freeHostsList, hsub]
  rw [find?_eq_filter_head]

theorem allocRecOf_ip (w : World) (sid : Nat) (did : Option Nat) (notes : Option String)
    (expAt : Option Nat) (now x : Nat) : (allocRecOf w sid did notes expAt now x).ip = x := rfl

theorem allocRecOf_subnetId (w : World) (sid : Nat) (did : Option Nat) (notes : Option String)
    (expAt : Option Nat) (now x : Nat) :
    (allocRecOf w sid did notes expAt now x).subnetId = sid := rfl

theorem allocRecOf_active (w : World) (sid : Nat) (did : Option Nat) (notes : Option String)
    (expAt : Option Nat) (now x : Nat) :
    isActiveStatus (allocRecOf w sid did notes expAt now x).status = true := rfl

/-- One no-preference allocation step: when the free-host list starts with
`x`, `allocate_ip` succeeds, allocates exactly `x`, and appends exactly one
new `allocated` row for `x` to the records table. -/
theorem alloc_scan_step (subnets : List Subnet) (w : World) (dnsOk routeOk : Bool)
    (sid : Nat) (subnet : Subnet) (did : Option Nat) (notes : Option String)
    (expAt : Option Nat) (now : Nat) (x : Nat) (rest : List Nat)
    (hsub : subnets.find? (fun s => s.id == sid) = some subnet)
    (hfree : freeHostsList w.records sid subnet.net subnet.plen = x :: rest) :
    ∃ w3, allocate_ip subnets w dnsOk routeOk sid did none notes expAt now =
        .ok (w3, allocRecOf w sid did notes expAt now x) ∧
      w3.records = w.records ++ [allocRecOf w sid did notes expAt now x] := by
  have hsel : selectIp subnets w.records sid none = .ok (subnet, x) := by
    rw [selectIp_scan subnets w.records sid subnet hsub, hfree]
    rfl
  simp only [allocate_ip, hsel]
  exact ⟨_, rfl, by rw [allocRouteStage_records, allocDnsStage_records]; rfl⟩

/-- Exhaustion: when no host of the pool is free, `allocate_ip` fails with
the (wrapped) pool-exhausted error. -/
theorem alloc_scan_exhausted (subnets : List Subnet) (w : World) (dnsOk routeOk : Bool)
    (sid : Nat) (subnet : Subnet) (did : Option Nat) (notes : Option String)
    (expAt : Option Nat) (now : Nat)
    (hsub : subnets.find? (fun s => s.id == sid) = some subnet)
    (hfree : freeHostsList w.records sid subnet.net subnet.plen = []) :
    allocate_ip subnets w dnsOk routeOk sid did none notes expAt now =
      .error (httpWrap .poolExhausted) := by
  have hsel : selectIp subnets w.records sid none = .error .poolExhausted := by
    rw [selectIp_scan subnets w.records sid subnet hsub, hfree]
    rfl
  simp only [allocate_ip, hsel]

theorem freeHostsList_pairwise (records : List IPRecord) (sid net plen : Nat) :
    (freeHostsList records sid net plen).Pairwise (· < ·) :=
  (hostsList_pairwise net plen).filter _

/-- Appending a fresh allocated/reserved row for address `rec.ip` removes
exactly that address from the pool's free-host list. -/
theorem freeHostsList_append_active (records : List IPRecord) (rec : IPRecord)
    (sid net plen : Nat)
    (hsid : rec.subnetId = sid) (hst : isActiveStatus rec.status = true)
    (hplen : plen ≤ 32) (hvalid : net + 2 ^ (32 - plen) ≤ 4294967296)
    (hrec : rec.ip < 4294967296) :
    freeHostsList (records ++ [rec]) sid net plen =
      (freeHostsList records sid net plen).filter (fun ip => !(rec.ip == ip)) := by
  unfold freeHostsList
  rw [List.filter_filter]
  apply List.filter_congr
  intro ip hip
  have hlt : ip < 4294967296 := mem_hostsList_lt hip hplen hvalid
  rw [scanFree_append records rec sid ip hsid hst, ipStr_beq _ _ hrec hlt]
  exact Bool.and_comm _ _

/-- Claim C1: for every pool with at least one free host, a no-preference
allocation succeeds and returns the numerically lowest host with no
allocated/reserved record (ascending first-fit scan); with free hosts
exactly {A < B < C}, three successive allocations return A, then B, then C;
with no free host the call fails with the pool-exhausted error (surfaced
through the generic exception wrapper). -/
theorem c1_scan_first_fit
    (subnets : List Subnet) (w : World) (dnsOk routeOk : Bool) (sid : Nat) (subnet : Subnet)
    (did : Option Nat) (notes : Option String) (expAt : Option Nat) (now : Nat)
    (A B C : Nat)
    (hsub : subnets.find? (fun s => s.id == sid) = some subnet)
    (hplen : subnet.plen ≤ 32)
    (hvalid : subnet.net + 2 ^ (32 - subnet.plen) ≤ 4294967296) :
    ((freeHostsList w.records sid subnet.net subnet.plen ≠ []) →
      ∃ w2 r, allocate_ip subnets w dnsOk routeOk sid did none notes expAt now = .ok (w2, r) ∧
        r.ip ∈ hostsList subnet.net subnet.plen ∧
        scanFree w.records sid r.ip = true ∧
        ∀ b ∈ hostsList subnet.net subnet.plen, scanFree w.records sid b = true → r.ip ≤ b)
    ∧
    ((freeHostsList w.records sid subnet.net subnet.plen = []) →
      allocate_ip subnets w dnsOk routeOk sid did none notes expAt now =
        .error (httpWrap .poolExhausted))
    ∧
    ((freeHostsList w.records sid subnet.net subnet.plen = [A, B, C]) →
      ∃ w1 r1 w2 r2 w3 r3,
        allocate_ip subnets w dnsOk routeOk sid did none notes expAt now = .ok (w1, r1) ∧
          r1.ip = A ∧
        allocate_ip subnets w1 dnsOk routeOk sid did none notes expAt now = .ok (w2, r2) ∧
          r2.ip = B ∧
        allocate_ip subnets w2 dnsOk routeOk sid did none notes expAt now = .ok (w3, r3) ∧
          r3.ip = C) := by
  refine ⟨?_, ?_, ?_⟩
  · intro hne
    obtain ⟨x, rest, hfree⟩ := List.exists_cons_of_ne_nil hne
    obtain ⟨w2, heq, -⟩ := alloc_scan_step subnets w dnsOk routeOk sid subnet did notes
      expAt now x rest hsub hfree
    refine ⟨w2, _, heq, ?_, ?_, ?_⟩
    · rw [allocRecOf_ip]
      have hx : x ∈ freeHostsList w.records sid subnet.net subnet.plen := by
        rw [hfree]; exact List.mem_cons_self _ _
      exact (List.mem_filter.mp hx).1
    · rw [allocRecOf_ip]
      have hx : x ∈ freeHostsList w.records sid subnet.net subnet.plen := by
        rw [hfree]; exact List.mem_cons_self _ _
      exact (List.mem_filter.mp hx).2
    · intro b hb hfb
      rw [allocRecOf_ip]
      have hbmem : b ∈ freeHostsList w.records sid subnet.net subnet.plen :=
        List.mem_filter.mpr ⟨hb, hfb⟩
      rw [hfree] at hbmem
      rcases List.mem_cons.mp hbmem with h | h
      · omega
      · have hpw := freeHostsList_pairwise w.records sid subnet.net subnet.plen
        rw [hfree] at hpw
        have := (List.pairwise_cons.mp hpw).1 b h
        omega
  · intro hfree
    exact alloc_scan_exhausted subnets w dnsOk routeOk sid subnet did notes expAt now hsub hfree
  · intro hfree
    have hpw := freeHostsList_pairwise w.records sid subnet.net subnet.plen
    rw [hfree] at hpw
    have hAB : A < B := (List.pairwise_cons.mp hpw).1 B (by simp)
    have hAC : A < C := (List.pairwise_cons.mp hpw).1 C (by simp)
    have hBC : B < C := by
      have := (List.pairwise_cons.mp (List.pairwise_cons.mp hpw).2).1 C (by simp)
      omega
    have hmemA : A ∈ hostsList subnet.net subnet.plen := by
      have : A ∈ freeHostsList w.records sid subnet.net subnet.plen := by
        rw [hfree]; simp
      exact (List.mem_filter.mp this).1
    have hmemB : B ∈ hostsList subnet.net subnet.plen := by
      have : B ∈ freeHostsList w.records sid subnet.net subnet.plen := by
        rw [hfree]; simp
      exact (List.mem_filter.mp this).1
    have hltA : A < 4294967296 := mem_hostsList_lt hmemA hplen hvalid
    have hltB : B < 4294967296 := mem_hostsList_lt hmemB hplen hvalid
    obtain ⟨w1, heq1, hrec1⟩ := alloc_scan_step subnets w dnsOk routeOk sid subnet did notes
      expAt now A [B, C] hsub hfree
    have hfree1 : freeHostsList w1.records sid subnet.net subnet.plen = [B, C] := by
      rw [hrec1, freeHostsList_append_active w.records _ sid subnet.net subnet.plen
        (allocRecOf_subnetId w sid did notes expAt now A)
        (allocRecOf_active w sid did notes expAt now A)
        hplen hvalid (by rw [allocRecOf_ip]; exact hltA), hfree]
      have h1 : (A == A) = true := by simp
      have h2 : (A == B) = false := by simp; omega
      have h3 : (A == C) = false := by simp; omega
      simp [allocRecOf_ip, List.filter_cons, h1, h2, h3]
    obtain ⟨w2, heq2, hrec2⟩ := alloc_scan_step subnets w1 dnsOk routeOk sid subnet did notes
      expAt now B [C] hsub hfree1
    have hfree2 : freeHostsList w2.records sid subnet.net subnet.plen = [C] := by
      rw [hrec2, freeHostsList_append_active w1.records _ sid subnet.net subnet.plen
        (allocRecOf_subnetId w1 sid did notes expAt now B)
        (allocRecOf_active w1 sid did notes expAt now B)
        hplen hvalid (by rw [allocRecOf_ip]; exact hltB), hfree1]
      have h1 : (B == B) = true := by simp
      have h2 : (B == C) = false := by simp; omega
      simp [allocRecOf_ip, List.filter_cons, h1, h2]
    obtain ⟨w3, heq3, -⟩ := alloc_scan_step subnets w2 dnsOk routeOk sid subnet did notes
      expAt now C [] hsub hfree2
    exact ⟨w1, _, w2, _, w3, _, heq1, allocRecOf_ip w sid did notes expAt now A,
      heq2, allocRecOf_ip w1 sid did notes expAt now B,
      heq3, allocRecOf_ip w2 sid did notes expAt now C⟩

theorem c1_scan_first_fit_witness :
    (List.find? (fun s => s.id == 2) [pool29] = some pool29) ∧
    pool29.plen ≤ 32 ∧
    pool29.net + 2 ^ (32 - pool29.plen) ≤ 4294967296 ∧
    freeHostsList world29.records 2 pool29.net pool29.plen =
      [mkIp 10 100 2 2, mkIp 10 100 2 4, mkIp 10 100 2 5] ∧
    (∃ w1 r1 w2 r2 w3 r3,
        allocate_ip [pool29] world29 true true 2 none none none none 5 = .ok (w1, r1) ∧
          r1.ip = mkIp 10 100 2 2 ∧
        allocate_ip [pool29] w1 true true 2 none none none none 5 = .ok (w2, r2) ∧
          r2.ip = mkIp 10 100 2 4 ∧
        allocate_ip [pool29] w2 true true 2 none none none none 5 = .ok (w3, r3) ∧
          r3.ip = mkIp 10 100 2 5) ∧
    (freeHostsList world30.records 3 pool30.net pool30.plen = []) ∧
    allocate_ip [pool30] world30 true true 3 none none none none 9 =
      .error (httpWrap .poolExhausted) :=
  ⟨by decide, by decide, by decide, by decide,
    (c1_scan_first_fit [pool29] world29 true true 2 pool29 none none none 5
      (mkIp 10 100 2 2) (mkIp 10 100 2 4) (mkIp 10 100 2 5)
      (by decide) (by decide) (by decide)).2.2 (by decide),
    by decide,
    (c1_scan_first_fit [pool30] world30 true true 3 pool30 none none none 9 0 0 0
      (by decide) (by decide) (by decide)).2.1 (by decide)⟩

/-- Preferred-path selection: a preferred address that parses but lies
outside the pool's CIDR raises the out-of-range error. -/
theorem selectIp_pref_out_of_range (subnets : List Subnet) (records : List IPRecord)
    (sid : Nat) (subnet : Subnet) (pstr : String) (p : Nat)
    (hsub : subnets.find? (fun s => s.id == sid) = some subnet)
    (hparse : parseIPv4 pstr = some p)
    (hout : inNetwork p subnet.net subnet.plen = false) :
    selectIp subnets records sid (some pstr) = .error .outOfRange := by
  simp [selectIp, hsub, hparse, hout]

/-- Preferred-path selection: a preferred address that parses, lies inside
the CIDR (network and broadcast included) and has no allocated/reserved row
anywhere is accepted as-is. -/
theorem selectIp_pref_accepted (subnets : List Subnet) (records : List IPRecord)
    (sid : Nat) (subnet : Subnet) (pstr : String) (p : Nat)
    (hsub : subnets.find? (fun s => s.id == sid) = some subnet)
    (hparse : parseIPv4 pstr = some p)
    (hin : inNetwork p subnet.net subnet.plen = true)
    (hconf : records.any (fun r => ipStr r.ip == pstr && isActiveStatus r.status) = false) :
    selectIp subnets records sid (some pstr) = .ok (subnet, p) := by
  simp [selectIp, hsub, hparse, hin, hconf]

/-- One no-preference allocation step, phrased on the head of the free-host
list. -/
theorem alloc_scan_step_head (subnets : List Subnet) (w : World) (dnsOk routeOk : Bool)
    (sid : Nat) (subnet : Subnet) (did : Option Nat) (notes : Option String)
    (expAt : Option Nat) (now : Nat) (x : Nat)
    (hsub : subnets.find? (fun s => s.id == sid) = some subnet)
    (hhead : (freeHostsList w.records sid subnet.net subnet.plen).head? = some x) :
    ∃ w3, allocate_ip subnets w dnsOk routeOk sid did none notes expAt now =
        .ok (w3, allocRecOf w sid did notes expAt now x) ∧
      w3.records = w.records ++ [allocRecOf w sid did notes expAt now x] := by
  rcases hl : freeHostsList w.records sid subnet.net subnet.plen with - | ⟨y, t⟩
  · rw [hl] at hhead
    simp at hhead
  · rw [hl] at hhead
    have hxy : y = x := by simpa using hhead
    subst hxy
    exact alloc_scan_step subnets w dnsOk routeOk sid subnet did notes expAt now y t hsub hl

/-- Claim C2 (amended): a preferred address that parses but lies outside the
pool's CIDR is rejected with OutOfRange (surfaced through the generic
exception wrapper), and the no-preference scan never selects the network or
the broadcast address of a pool of prefix length at most /30.  However — and
this is where the original claim fails — the preferred-address path accepts
any address inside the CIDR, the network and broadcast addresses included,
whenever no allocated/reserved row exists for it, because Python's
`ip in network` membership includes both boundary addresses. -/
theorem c2_range_enforcement (subnets : List Subnet) (w : World) (dnsOk routeOk : Bool)
    (sid : Nat) (subnet : Subnet) (did : Option Nat) (notes : Option String)
    (expAt : Option Nat) (now : Nat) (pstr : String) (p : Nat)
    (hsub : subnets.find? (fun s => s.id == sid) = some subnet) :
    ((parseIPv4 pstr = some p) → inNetwork p subnet.net subnet.plen = false →
      allocate_ip subnets w dnsOk routeOk sid did (some pstr) notes expAt now =
        .error (httpWrap .outOfRange))
    ∧
    (subnet.plen ≤ 30 →
      ∀ w2 r, allocate_ip subnets w dnsOk routeOk sid did none notes expAt now = .ok (w2, r) →
        r.ip ≠ subnet.net ∧ r.ip ≠ broadcastAddr subnet.net subnet.plen)
    ∧
    ((parseIPv4 pstr = some p) → inNetwork p subnet.net subnet.plen = true →
      w.records.any (fun r => ipStr r.ip == pstr && isActiveStatus r.status) = false →
      ∃ w2, allocate_ip subnets w dnsOk routeOk sid did (some pstr) notes expAt now =
        .ok (w2, allocRecOf w sid did notes expAt now p)) := by
  refine ⟨?_, ?_, ?_⟩
  · intro hparse hout
    have hsel := selectIp_pref_out_of_range subnets w.records sid subnet pstr p hsub hparse hout
    simp only [allocate_ip, hsel]
  · intro hp30 w2 r h
    rcases hl : freeHostsList w.records sid subnet.net subnet.plen with - | ⟨ip0, t⟩
    · rw [alloc_scan_exhausted subnets w dnsOk routeOk sid subnet did notes expAt now hsub hl]
        at h
      exact absurd h (by simp)
    · obtain ⟨w3, heq, -⟩ := alloc_scan_step subnets w dnsOk routeOk sid subnet did notes
        expAt now ip0 t hsub hl
      rw [heq] at h
      have hr : r = allocRecOf w sid did notes expAt now ip0 := by
        have := (Prod.mk.injEq _ _ _ _).mp (Except.ok.inj h)
        exact this.2.symm
      have hmem : ip0 ∈ hostsList subnet.net subnet.plen := by
        have : ip0 ∈ freeHostsList w.records sid subnet.net subnet.plen := by
          rw [hl]; exact List.mem_cons_self _ _
        exact (List.mem_filter.mp this).1
      have hbet := mem_hostsList_between hmem hp30
      rw [hr, allocRecOf_ip]
      omega
  · intro hparse hin hconf
    have hsel := selectIp_pref_accepted subnets w.records sid subnet pstr p hsub hparse hin hconf
    simp only [allocate_ip, hsel]
    exact ⟨_, rfl⟩

/-- Counterexample to claim C2 as stated: on pool `10.100.1.0/24` with no
records at all, requesting preferred address `10.100.1.0` — the network
address — succeeds, and the created allocation row holds the network
address with status `allocated`. -/
theorem c2_range_enforcement_cex :
    allocResultIp (allocate_ip [pool24] emptyWorld true true 1 none (some "10.100.1.0")
      none none 5) = some pool24.net ∧
    allocResultIp (allocate_ip [pool24] emptyWorld true true 1 none
      (some (ipStr (broadcastAddr pool24.net pool24.plen))) none none 5) =
      some (broadcastAddr pool24.net pool24.plen) := by
  decide

theorem c2_range_enforcement_witness :
    (parseIPv4 "10.200.0.7" = some (mkIp 10 200 0 7)) ∧
    (inNetwork (mkIp 10 200 0 7) pool24.net pool24.plen = false) ∧
    allocate_ip [pool24] emptyWorld true true 1 none (some "10.200.0.7") none none 5 =
      .error (httpWrap .outOfRange) :=
  ⟨by decide, by decide,
    (c2_range_enforcement [pool24] emptyWorld true true 1 pool24 none none none 5
      "10.200.0.7" (mkIp 10 200 0 7) (by decide)).1 (by decide) (by decide)⟩

/-- Claim C3 (amended): on pool `10.100.1.0/24` with gateway `10.100.1.1`
and no prior allocation rows, a no-preference allocation returns
`10.100.1.1` — the numerically first host — not `10.100.1.2`: nothing in the
scan excludes the subnet's gateway address, which is simply the first host
of the range. -/
theorem c3_gateway_not_skipped (dnsOk routeOk : Bool) (did : Option Nat)
    (notes : Option String) (expAt : Option Nat) (now : Nat) :
    ∃ w2, allocate_ip [pool24] emptyWorld dnsOk routeOk 1 did none notes expAt now =
        .ok (w2, allocRecOf emptyWorld 1 did notes expAt now (mkIp 10 100 1 1)) ∧
      (allocRecOf emptyWorld 1 did notes expAt now (mkIp 10 100 1 1)).ip = mkIp 10 100 1 1 ∧
      pool24.gateway = some (mkIp 10 100 1 1) := by
  obtain ⟨w2, heq, -⟩ := alloc_scan_step_head [pool24] emptyWorld dnsOk routeOk 1 pool24
    did notes expAt now (mkIp 10 100 1 1) (by decide) (by decide)
  exact ⟨w2, heq, rfl, rfl⟩

/-- Counterexample to claim C3 as stated: the allocation returns
`10.100.1.1`, which is not the expected `10.100.1.2`. -/
theorem c3_gateway_not_skipped_cex :
    allocResultIp (allocate_ip [pool24] emptyWorld true true 1 none none none none 5) =
      some (mkIp 10 100 1 1) ∧
    mkIp 10 100 1 1 ≠ mkIp 10 100 1 2 ∧
    pool24.gateway = some (mkIp 10 100 1 1) := by
  decide

/-- Claim C4: after `10.100.1.2` is allocated, a second allocation request
preferring `10.100.1.2` does raise the distinct conflict error (HTTP 409,
"Preferred IP already allocated") inside `allocate_ip` — but the blanket
`except Exception` handler catches the service's own `HTTPException` and
re-raises it as a generic internal error, so the surfaced result of the
second call is HTTP 500 with the original 409 only quoted inside the detail
string, not the Conflict error kind itself. -/
theorem c4_conflict_surfaced_as_500 :
    allocate_ip [pool24] emptyWorld true true 1 none (some "10.100.1.2") none none 5 =
      .ok (c4World, c4Rec) ∧
    allocate_ip [pool24] c4World true true 1 none (some "10.100.1.2") none none 6 =
      .error (httpWrap .conflict) ∧
    httpWrap .conflict = (500, "409: Preferred IP already allocated") ∧
    raiseStatus .conflict = 409 := by
  decide

theorem allocRouteStage_dns (w2 : World) (routeOk : Bool) (ip : Nat) :
    (allocRouteStage w2 routeOk ip).dns = w2.dns := by
  unfold allocRouteStage
  repeat' split
  all_goals rfl

theorem allocRouteStage_fail_logs (w2 : World) (ip : Nat)
    (hcy : ipam_is_cyber_range_ip (ipStr ip) = true) :
    (allocRouteStage w2 false ip).logs =
      w2.logs ++ ["Failed to trigger route injection"] := by
  unfold allocRouteStage
  rw [if_pos hcy]
  simp

/-- Claim C5 (amended): when the DNS stage succeeds and the route-injection
stage then fails, `allocate_ip` performs no compensation at all: the route
error is swallowed (logged only), the DNS record that was created remains,
the new allocation row remains `allocated`, and the call still reports
success. -/
theorem c5_no_compensation (subnets : List Subnet) (w : World) (sid : Nat)
    (subnet : Subnet) (did : Nat) (dev : DeviceRec) (notes : Option String)
    (expAt : Option Nat) (now x : Nat) (rest : List Nat)
    (hsub : subnets.find? (fun s => s.id == sid) = some subnet)
    (hfree : freeHostsList w.records sid subnet.net subnet.plen = x :: rest)
    (hdev : w.devices.find? (fun d => d.id == did) = some dev)
    (hcy : ipam_is_cyber_range_ip (ipStr x) = true) :
    ∃ w2, allocate_ip subnets w true false sid (some did) none notes expAt now =
        .ok (w2, allocRecOf w sid (some did) notes expAt now x) ∧
      ({ fqdn := dev.hostname ++ "." ++ subnet.zone, ip := x } : DNSEntry) ∈ w2.dns ∧
      allocRecOf w sid (some did) notes expAt now x ∈ w2.records ∧
      (allocRecOf w sid (some did) notes expAt now x).status = .allocated ∧
      "Failed to trigger route injection" ∈ w2.logs := by
  have hsel : selectIp subnets w.records sid none = .ok (subnet, x) := by
    rw [selectIp_scan subnets w.records sid subnet hsub, hfree]
    rfl
  simp only [allocate_ip, hsel]
  refine ⟨_, rfl, ?_, ?_, rfl, ?_⟩
  · rw [allocRouteStage_dns]
    simp only [allocDnsStage, hdev]
    simp
  · rw [allocRouteStage_records, allocDnsStage_records]
    simp only [List.mem_append, List.mem_singleton]
    exact Or.inr rfl
  · rw [allocRouteStage_fail_logs _ _ hcy]
    simp

/-- Counterexample to claim C5 as stated: on pool `10.100.1.0/24` with
device 7 registered, DNS succeeding and route injection failing, the call
returns success, the DNS record is still present, the address row is still
`allocated`, and the only trace of the route failure is a log line. -/
theorem c5_no_compensation_cex :
    allocate_ip [pool24] deviceWorld true false 1 (some 7) none none none 5 =
      .ok ({ nextId := 2,
             records := [{ id := 1, ip := mkIp 10 100 1 1, subnetId := 1, deviceId := some 7,
                           status := .allocated, allocatedAt := some 5, expiresAt := none,
                           notes := none }],
             devices := [{ id := 7, hostname := "target1" }],
             dns := [{ fqdn := "target1.bakerstreetlabs.local", ip := mkIp 10 100 1 1 }],
             logs := ["Failed to trigger route injection"] },
           { id := 1, ip := mkIp 10 100 1 1, subnetId := 1, deviceId := some 7,
             status := .allocated, allocatedAt := some 5, expiresAt := none,
             notes := none }) := by
  decide

theorem c5_no_compensation_witness :
    (List.find? (fun s => s.id == 1) [pool24] = some pool24) ∧
    (freeHostsList deviceWorld.records 1 pool24.net pool24.plen =
      hostsList pool24.net pool24.plen) ∧
    (deviceWorld.devices.find? (fun d => d.id == 7) = some { id := 7, hostname := "target1" }) ∧
    (ipam_is_cyber_range_ip (ipStr (mkIp 10 100 1 1)) = true) ∧
    (∃ w2, allocate_ip [pool24] deviceWorld true false 1 (some 7) none none none 5 =
        .ok (w2, allocRecOf deviceWorld 1 (some 7) none none 5 (mkIp 10 100 1 1)) ∧
      ({ fqdn := "target1" ++ "." ++ pool24.zone, ip := mkIp 10 100 1 1 } : DNSEntry) ∈ w2.dns ∧
      allocRecOf deviceWorld 1 (some 7) none none 5 (mkIp 10 100 1 1) ∈ w2.records ∧
      (allocRecOf deviceWorld 1 (some 7) none none 5 (mkIp 10 100 1 1)).status = .allocated ∧
      "Failed to trigger route injection" ∈ w2.logs) := by
  refine ⟨by decide, by decide, by decide, by decide, ?_⟩
  have hfree : freeHostsList deviceWorld.records 1 pool24.net pool24.plen =
      mkIp 10 100 1 1 :: (List.range 253).map (fun k => mkIp 10 100 1 2 + k) := by decide
  exact c5_no_compensation [pool24] deviceWorld 1 pool24 7 { id := 7, hostname := "target1" }
    none none 5 (mkIp 10 100 1 1) ((List.range 253).map (fun k => mkIp 10 100 1 2 + k))
    (by decide) hfree (by decide) (by decide)

/-- Claim C6: in the enhanced route-injection pipeline, when the DNS stage
and route creation succeed but the configuration commit fails, the service
nevertheless writes the Redis association entry for the generated route
name and reports success; the commit failure leaves only a warning log.
This evaluates the embedded `inject_route_for_dns_record` at the failing
input (commit outcome = failure, auto-commit on). -/
theorem c6_association_despite_commit_failure :
    inject_route_for_dns_record
      { dnsAddOk := true, routeCreateOk := true, routeDeleteOk := true,
        autoCommit := true, commitOk := false }
      defaultNets [] [] "bakerstreetlabs.local" "test.bakerstreetlabs.local" "10.100.1.2" =
    { success := true, routeInjected := true,
      cache := ["route:dns_bakerstreetlabs_local_test_bakerstreetlabs_local_10_100_1_2"],
      logs := ["Route created but commit failed"] } := by
  decide

theorem pollLoopFuel_neverFin : ∀ fuel i, pollLoopFuel neverFinPolls fuel i = none := by
  intro fuel
  induction fuel with
  | zero => intro i; rfl
  | succ n ih =>
    intro i
    have hterm : terminalAnswer (neverFinPolls i) = none := rfl
    simp only [pollLoopFuel, hterm]
    exact ih (i + 1)

/-- Counterexample to claim C7 as stated: the polling loop does not
terminate on every status sequence — on a job that never reaches a terminal
state (every poll answers `ACT`) the loop polls forever, because the source
loop is `while True:` with no caller-supplied timeout. -/
theorem c7_poll_loop_cex : ¬ pollLoopHalts neverFinPolls := by
  rintro ⟨fuel, hf⟩
  rw [pollLoopFuel_neverFin fuel 0] at hf
  simp at hf

theorem pollLoopFuel_reaches (polls : Nat → PollOutcome) :
    ∀ k j fuel b, (∀ i, i < k → terminalAnswer (polls (j + i)) = none) →
      terminalAnswer (polls (j + k)) = some b → k < fuel →
      pollLoopFuel polls fuel j = some b := by
  intro k
  induction k with
  | zero =>
    intro j fuel b hpre hterm hf
    cases fuel with
    | zero => omega
    | succ m =>
      simp only [pollLoopFuel]
      rw [show j + 0 = j from rfl] at hterm
      rw [hterm]
  | succ n ih =>
    intro j fuel b hpre hterm hf
    cases fuel with
    | zero => omega
    | succ m =>
      have h0 : terminalAnswer (polls j) = none := by
        have := hpre 0 (by omega)
        rwa [show j + 0 = j from rfl] at this
      simp only [pollLoopFuel, h0]
      apply ih (j + 1) m b
      · intro i hi
        have := hpre (i + 1) (by omega)
        rwa [show j + (i + 1) = j + 1 + i by omega] at this
      · rwa [show j + 1 + n = j + (n + 1) by omega]
      · omega

/-- Claim C7 (amended): the loop polls at a fixed 2-second interval and
terminates exactly when some poll yields a terminal answer — status `FIN`
(success iff the result element is `OK`), a response with no status element,
or a transport error (both reported as plain failure).  There is no
caller-supplied loop timeout: a job that never reaches a terminal state is
polled forever (see the counterexample), and timeouts are not a
distinguishable outcome — the function returns only a boolean. -/
theorem c7_poll_loop_terminal (polls : Nat → PollOutcome) (k fuel : Nat) (b : Bool)
    (hpre : ∀ i, i < k → terminalAnswer (polls i) = none)
    (hterm : terminalAnswer (polls k) = some b)
    (hfuel : k < fuel) :
    pollLoopFuel polls fuel 0 = some b ∧ commitPollIntervalSeconds = 2 :=
  ⟨pollLoopFuel_reaches polls k 0 fuel b (fun i hi => by simpa using hpre i hi)
    (by simpa using hterm) hfuel, rfl⟩

theorem c7_poll_loop_terminal_witness :
    (∀ i, i < 2 → terminalAnswer (finAfterTwoPolls i) = none) ∧
    (terminalAnswer (finAfterTwoPolls 2) = some true) ∧
    (pollLoopFuel finAfterTwoPolls 3 0 = some true ∧ commitPollIntervalSeconds = 2) :=
  ⟨by decide, by decide,
    c7_poll_loop_terminal finAfterTwoPolls 2 3 true (by decide) (by decide) (by decide)⟩

theorem releaseRouteStage_records (w1 : World) (routeOk : Bool) (s : String) :
    (releaseRouteStage w1 routeOk s).records = w1.records := by
  unfold releaseRouteStage
  repeat' split
  all_goals rfl

/-- Claim C8 (amended): releasing an address with an `allocated` row
succeeds and clears the row's device linkage and both timestamps, setting
the status back to `available`, while leaving the address value and the
owning pool identifier unchanged; the `notes` field, however, is NOT
cleared — `release_ip` never touches it.  Releasing an address with no
`allocated` row fails with the (wrapped) not-allocated error and changes
nothing. -/
theorem c8_release_clears_fields (w : World) (routeOk : Bool) (s : String) (r : IPRecord) :
    ((w.records.find? (releasePred s) = some r) →
      ∃ w2, release_ip w routeOk s =
          .ok (w2, "IP address " ++ s ++ " released successfully") ∧
        clearRecord r ∈ w2.records ∧
        (clearRecord r).status = .available ∧
        (clearRecord r).deviceId = none ∧
        (clearRecord r).allocatedAt = none ∧
        (clearRecord r).expiresAt = none ∧
        (clearRecord r).notes = r.notes ∧
        (clearRecord r).ip = r.ip ∧
        (clearRecord r).subnetId = r.subnetId)
    ∧
    ((w.records.find? (releasePred s) = none) →
      release_ip w routeOk s = .error (httpWrap .notAllocated)) := by
  constructor
  · intro h
    simp only [release_ip, h]
    refine ⟨_, rfl, ?_, rfl, rfl, rfl, rfl, rfl, rfl, rfl⟩
    rw [releaseRouteStage_records]
    exact updateFirst_mem h
  · intro h
    simp only [release_ip, h]

/-- Counterexample to claim C8 as stated: releasing `10.100.1.2` from a
world whose allocated row carries the note "lab device" clears device
linkage and timestamps but leaves the note in place — the released row
still reads `notes = some "lab device"`, not `none`. -/
theorem c8_release_clears_fields_cex :
    release_ip notedWorld true "10.100.1.2" =
      .ok ({ nextId := 2,
             records := [{ id := 1, ip := mkIp 10 100 1 2, subnetId := 1, deviceId := none,
                           status := .available, allocatedAt := none, expiresAt := none,
                           notes := some "lab device" }],
             devices := [], dns := [], logs := [] },
           "IP address 10.100.1.2 released successfully") ∧
    (some "lab device" : Option String) ≠ none := by
  decide

theorem c8_release_clears_fields_witness :
    (notedWorld.records.find? (releasePred "10.100.1.2") =
      some { id := 1, ip := mkIp 10 100 1 2, subnetId := 1, deviceId := some 7,
             status := .allocated, allocatedAt := some 1111, expiresAt := some 2222,
             notes := some "lab device" }) ∧
    (emptyWorld.records.find? (releasePred "10.100.1.9") = none) ∧
    (∃ w2, release_ip notedWorld true "10.100.1.2" =
        .ok (w2, "IP address " ++ "10.100.1.2" ++ " released successfully") ∧
      clearRecord { id := 1, ip := mkIp 10 100 1 2, subnetId := 1, deviceId := some 7,
                    status := .allocated, allocatedAt := some 1111, expiresAt := some 2222,
                    notes := some "lab device" } ∈ w2.records ∧
      (clearRecord { id := 1, ip := mkIp 10 100 1 2, subnetId := 1, deviceId := some 7,
                     status := .allocated, allocatedAt := some 1111, expiresAt := some 2222,
                     notes := some "lab device" }).status = .available ∧
      (clearRecord { id := 1, ip := mkIp 10 100 1 2, subnetId := 1, deviceId := some 7,
                     status := .allocated, allocatedAt := some 1111, expiresAt := some 2222,
                     notes := some "lab device" }).deviceId = none ∧
      (clearRecord { id := 1, ip := mkIp 10 100 1 2, subnetId := 1, deviceId := some 7,
                     status := .allocated, allocatedAt := some 1111, expiresAt := some 2222,
                     notes := some "lab device" }).allocatedAt = none ∧
      (clearRecord { id := 1, ip := mkIp 10 100 1 2, subnetId := 1, deviceId := some 7,
                     status := .allocated, allocatedAt := some 1111, expiresAt := some 2222,
                     notes := some "lab device" }).expiresAt = none ∧
      (clearRecord { id := 1, ip := mkIp 10 100 1 2, subnetId := 1, deviceId := some 7,
                     status := .allocated, allocatedAt := some 1111, expiresAt := some 2222,
                     notes := some "lab device" }).notes =
        ({ id := 1, ip := mkIp 10 100 1 2, subnetId := 1, deviceId := some 7,
           status := .allocated, allocatedAt := some 1111, expiresAt := some 2222,
           notes := some "lab device" } : IPRecord).notes ∧
      (clearRecord { id := 1, ip := mkIp 10 100 1 2, subnetId := 1, deviceId := some 7,
                     status := .allocated, allocatedAt := some 1111, expiresAt := some 2222,
                     notes := some "lab device" }).ip =
        ({ id := 1, ip := mkIp 10 100 1 2, subnetId := 1, deviceId := some 7,
           status := .allocated, allocatedAt := some 1111, expiresAt := some 2222,
           notes := some "lab device" } : IPRecord).ip ∧
      (clearRecord { id := 1, ip := mkIp 10 100 1 2, subnetId := 1, deviceId := some 7,
                     status := .allocated, allocatedAt := some 1111, expiresAt := some 2222,
                     notes := some "lab device" }).subnetId =
        ({ id := 1, ip := mkIp 10 100 1 2, subnetId := 1, deviceId := some 7,
           status := .allocated, allocatedAt := some 1111, expiresAt := some 2222,
           notes := some "lab device" } : IPRecord).subnetId) ∧
    (release_ip emptyWorld true "10.100.1.9" = .error (httpWrap .notAllocated)) :=
  ⟨by decide, by decide,
    (c8_release_clears_fields notedWorld true "10.100.1.2"
      { id := 1, ip := mkIp 10 100 1 2, subnetId := 1, deviceId := some 7,
        status := .allocated, allocatedAt := some 1111, expiresAt := some 2222,
        notes := some "lab device" }).1 (by decide),
    (c8_release_clears_fields emptyWorld true "10.100.1.9"
      { id := 1, ip := mkIp 10 100 1 2, subnetId := 1, deviceId := some 7,
        status := .allocated, allocatedAt := some 1111, expiresAt := some 2222,
        notes := some "lab device" }).2 (by decide)⟩

/-- Claim C9: removal of route side effects is idempotent with respect to
the association cache: when the cache holds no entry for the generated route
name the call is a success no-op that changes neither the cache nor the
logs; and (with the device deletion succeeding) removing the same
record twice in a row reports success both times. -/
theorem c9_idempotent_release (env : RouteEnv) (cache logs : List String)
    (zone fqdn ipAddr : String) :
    ((cache.contains (routeKey (generate_route_name fqdn ipAddr (some zone))) = false) →
      remove_route_for_dns_record env cache logs zone fqdn ipAddr =
        { success := true, routeRemoved := false, cache := cache, logs := logs })
    ∧
    (env.routeDeleteOk = true →
      (remove_route_for_dns_record env cache logs zone fqdn ipAddr).success = true ∧
      (remove_route_for_dns_record env
          (remove_route_for_dns_record env cache logs zone fqdn ipAddr).cache
          (remove_route_for_dns_record env cache logs zone fqdn ipAddr).logs
          zone fqdn ipAddr).success = true) := by
  constructor
  · intro h
    have hmem : routeKey (generate_route_name fqdn ipAddr (some zone)) ∉ cache := by
      simpa using h
    simp [remove_route_for_dns_record, hmem]
  · intro hdel
    by_cases hmem1 : routeKey (generate_route_name fqdn ipAddr (some zone)) ∈ cache
    · constructor
      · simp [remove_route_for_dns_record, hmem1, hdel]
      · by_cases hmem2 : routeKey (generate_route_name fqdn ipAddr (some zone)) ∈
            cache.filter (fun k => k != routeKey (generate_route_name fqdn ipAddr (some zone)))
        · simp [remove_route_for_dns_record, hmem1, hmem2, hdel]
        · simp [remove_route_for_dns_record, hmem1, hmem2, hdel]
    · constructor
      · simp [remove_route_for_dns_record, hmem1]
      · simp [remove_route_for_dns_record, hmem1]

theorem c9_idempotent_release_witness :
    (([] : List String).contains
      (routeKey (generate_route_name "web1.bakerstreetlabs.local" "10.100.1.2"
        (some "bakerstreetlabs.local"))) = false) ∧
    (remove_route_for_dns_record
        { dnsAddOk := true, routeCreateOk := true, routeDeleteOk := true,
          autoCommit := true, commitOk := true } [] []
        "bakerstreetlabs.local" "web1.bakerstreetlabs.local" "10.100.1.2" =
      { success := true, routeRemoved := false, cache := [], logs := [] }) ∧
    ((remove_route_for_dns_record
        { dnsAddOk := true, routeCreateOk := true, routeDeleteOk := true,
          autoCommit := true, commitOk := true }
        ["route:dns_bakerstreetlabs_local_web1_bakerstreetlabs_local_10_100_1_2"] []
        "bakerstreetlabs.local" "web1.bakerstreetlabs.local" "10.100.1.2").success = true ∧
      (remove_route_for_dns_record
          { dnsAddOk := true, routeCreateOk := true, routeDeleteOk := true,
            autoCommit := true, commitOk := true }
          (remove_route_for_dns_record
            { dnsAddOk := true, routeCreateOk := true, routeDeleteOk := true,
              autoCommit := true, commitOk := true }
            ["route:dns_bakerstreetlabs_local_web1_bakerstreetlabs_local_10_100_1_2"] []
            "bakerstreetlabs.local" "web1.bakerstreetlabs.local" "10.100.1.2").cache
          (remove_route_for_dns_record
            { dnsAddOk := true, routeCreateOk := true, routeDeleteOk := true,
              autoCommit := true, commitOk := true }
            ["route:dns_bakerstreetlabs_local_web1_bakerstreetlabs_local_10_100_1_2"] []
            "bakerstreetlabs.local" "web1.bakerstreetlabs.local" "10.100.1.2").logs
          "bakerstreetlabs.local" "web1.bakerstreetlabs.local" "10.100.1.2").success = true) :=
  ⟨by decide,
    (c9_idempotent_release
      { dnsAddOk := true, routeCreateOk := true, routeDeleteOk := true,
        autoCommit := true, commitOk := true } [] []
      "bakerstreetlabs.local" "web1.bakerstreetlabs.local" "10.100.1.2").1 (by decide),
    (c9_idempotent_release
      { dnsAddOk := true, routeCreateOk := true, routeDeleteOk := true,
        autoCommit := true, commitOk := true }
      ["route:dns_bakerstreetlabs_local_web1_bakerstreetlabs_local_10_100_1_2"] []
      "bakerstreetlabs.local" "web1.bakerstreetlabs.local" "10.100.1.2").2 (by decide)⟩

theorem charsStartWith_append (p rest : List Char) : charsStartWith p (p ++ rest) = true := by
  induction p with
  | nil => rfl
  | cons c cs ih => simp [charsStartWith, ih]

theorem charsStartWith_of_append (p la lb : List Char)
    (h : charsStartWith p la = true) : charsStartWith p (la ++ lb) = true := by
  induction p generalizing la with
  | nil => rfl
  | cons c cs ih =>
    cases la with
    | nil => simp [charsStartWith] at h
    | cons d ds =>
      simp only [charsStartWith, Bool.and_eq_true] at h
      simp only [List.cons_append, charsStartWith, Bool.and_eq_true]
      exact ⟨h.1, ih ds h.2⟩

theorem pyStartsWith_append (pre rest : String) : pyStartsWith (pre ++ rest) pre = true := by
  unfold pyStartsWith
  rw [toList_append]
  exact charsStartWith_append _ _

theorem pyStartsWith_left (a b pre : String) (h : pyStartsWith a pre = true) :
    pyStartsWith (a ++ b) pre = true := by
  unfold pyStartsWith at h ⊢
  rw [toList_append]
  exact charsStartWith_of_append _ _ _ h

/-- Claim C10 (amended): the two managed-range predicates do not agree on
all address strings (see the counterexample), but the implication in one
direction does hold: every canonical dotted-quad address accepted by the
IPAM service's CIDR-list check (10.0.0.0/8, 172.20.0.0/16, 172.21.0.0/16,
192.168.0.0/16) is also accepted by the webhook handler's
startswith ("10.", "172.", "192.168.") check. -/
theorem c10_cidr_implies_startswith (ip : Nat) (h : ip < 4294967296)
    (hc : ipam_is_cyber_range_ip (ipStr ip) = true) :
    webhook_is_cyber_range_ip (ipStr ip) = true := by
  unfold ipam_is_cyber_range_ip is_cyber_range_ip at hc
  rw [ipStr_parse ip h] at hc
  simp only [cyberRangeNetworks, List.any_cons, List.any_nil, Bool.or_false,
    Bool.or_eq_true] at hc
  unfold webhook_is_cyber_range_ip
  rcases hc with h10 | h172a | h172b | h192
  · -- 10.0.0.0/8: first octet is 10, so the string starts with "10."
    simp only [inNetwork, Bool.and_eq_true, decide_eq_true_eq] at h10
    norm_num [mkIp] at h10
    have ho1 : ip / 16777216 % 256 = 10 := by omega
    have hs : pyStartsWith (ipStr ip) "10." = true := by
      unfold ipStr
      rw [ho1]
      rw [show Nat.repr 10 ++ "." = "10." from by decide]
      exact pyStartsWith_left _ _ _ (pyStartsWith_left _ _ _ (pyStartsWith_left _ _ _
        (pyStartsWith_left _ _ _ (pyStartsWith_append "10." _))))
    simp [hs]
  · -- 172.20.0.0/16: first octet is 172, so the string starts with "172."
    simp only [inNetwork, Bool.and_eq_true, decide_eq_true_eq] at h172a
    norm_num [mkIp] at h172a
    have ho1 : ip / 16777216 % 256 = 172 := by omega
    have hs : pyStartsWith (ipStr ip) "172." = true := by
      unfold ipStr
      rw [ho1]
      rw [show Nat.repr 172 ++ "." = "172." from by decide]
      exact pyStartsWith_left _ _ _ (pyStartsWith_left _ _ _ (pyStartsWith_left _ _ _
        (pyStartsWith_left _ _ _ (pyStartsWith_append "172." _))))
    simp [hs]
  · -- 172.21.0.0/16: same first octet, same conclusion
    simp only [inNetwork, Bool.and_eq_true, decide_eq_true_eq] at h172b
    norm_num [mkIp] at h172b
    have ho1 : ip / 16777216 % 256 = 172 := by omega
    have hs : pyStartsWith (ipStr ip) "172." = true := by
      unfold ipStr
      rw [ho1]
      rw [show Nat.repr 172 ++ "." = "172." from by decide]
      exact pyStartsWith_left _ _ _ (pyStartsWith_left _ _ _ (pyStartsWith_left _ _ _
        (pyStartsWith_left _ _ _ (pyStartsWith_append "172." _))))
    simp [hs]
  · -- 192.168.0.0/16: first two octets are 192 and 168
    simp only [inNetwork, Bool.and_eq_true, decide_eq_true_eq] at h192
    norm_num [mkIp] at h192
    have ho1 : ip / 16777216 % 256 = 192 := by omega
    have ho2 : ip / 65536 % 256 = 168 := by omega
    have hs : pyStartsWith (ipStr ip) "192.168." = true := by
      unfold ipStr
      rw [ho1, ho2]
      rw [show Nat.repr 192 ++ "." = "192." from by decide]
      rw [show ("192." : String) ++ Nat.repr 168 = "192.168" from by decide]
      rw [show ("192.168" : String) ++ "." = "192.168." from by decide]
      exact pyStartsWith_left _ _ _ (pyStartsWith_left _ _ _
        (pyStartsWith_append "192.168." _))
    simp [hs]

theorem c10_cidr_implies_startswith_witness :
    (mkIp 172 20 3 4 < 4294967296) ∧
    (ipam_is_cyber_range_ip (ipStr (mkIp 172 20 3 4)) = true) ∧
    webhook_is_cyber_range_ip (ipStr (mkIp 172 20 3 4)) = true :=
  ⟨by decide, by decide,
    c10_cidr_implies_startswith (mkIp 172 20 3 4) (by decide) (by decide)⟩

/-- Counterexample to claim C10 as stated: on the address string
`172.16.0.1` the IPAM CIDR-list check answers `false` (172.16.0.0 lies in
none of its four networks) while the webhook prefix check answers `true`
(the string starts with "172."), so the two predicates are not equivalent:
the webhook handler would classify as managed an address the IPAM service
never routes. -/
theorem c10_cidr_implies_startswith_cex :
    ipam_is_cyber_range_ip "172.16.0.1" = false ∧
    webhook_is_cyber_range_ip "172.16.0.1" = true := by
  decide
